import Mathlib

/-!
Verification of the frontend of the Image-search application.

The definitions below are a shallow embedding of the React frontend:

* `src/frontend/src/services/api.js` — the axios instance, its response
  interceptor, and the exported request helpers;
* `src/frontend/src/components/CSVUpload.js` — the CSV bulk-indexing
  component, its progress-polling `useEffect`, its upload handler and its
  `getProgressPercentage` helper;
* `src/frontend/src/components/ImageUpload.js` — `handleSearch`;
* the `TextSearch` component — `handleSearch`;
* `App.js` — the tab-switching state of the single-page application.

Component state is modelled as explicit records; each event handler becomes
a function from the state (and, where the handler awaits a backend promise,
the outcome of that promise) to the new state together with the list of
observable effects (toasts, console logs, backend requests, parent
callbacks) the handler fires, in order.
-/

/-- JavaScript truthiness of an optional string value: `null`/`undefined`
and the empty string are falsy, every other string is truthy. -/
def truthyStr : Option String → Bool
  | none => false
  | some s => s != ""

/-- Strip leading and trailing whitespace from a character list. -/
def trimChars (cs : List Char) : List Char :=
  ((cs.dropWhile Char.isWhitespace).reverse.dropWhile Char.isWhitespace).reverse

/-- JavaScript's `String.prototype.trim()`: the string with leading and
trailing whitespace removed. -/
def jsTrim (s : String) : String :=
  String.mk (trimChars s.data)

/-- A backend request issued by the frontend.  The five helpers defined in
`src/frontend/src/services/api.js` issue plain `GET`/`POST` requests to
fixed paths.  The CSV bulk-indexing flow additionally calls
`uploadCSVWithProgress` and `getUploadProgress`, which are imported by
`CSVUpload.js` but whose definitions are not part of the sources at hand;
they are modelled abstractly (see their doc comments below). -/
inductive FrontendRequest where
  | post (path : String)
  | get (path : String)
  | csvUploadInit (columnName : String)
  | progressPoll (taskId : String)
deriving DecidableEq, Repr

/-- An observable effect fired by a component handler. -/
inductive Effect where
  | toastError (msg : String)
  | toastSuccess (msg : String)
  | consoleError (msg : String)
  | request (r : FrontendRequest)
  | searchStart
  | searchComplete (withResults : Bool)
deriving DecidableEq, Repr

/-- Whether an effect is a toast notification (success or error). -/
def isToastEffect : Effect → Bool
  | .toastError _ => true
  | .toastSuccess _ => true
  | _ => false

/-- Whether an effect is a backend request. -/
def isRequestEffect : Effect → Bool
  | .request _ => true
  | _ => false

/-! ## `services/api.js`: the request helpers -/

/-- `uploadImageAndSearch` POSTs the image form data to `/upload`. -/
def uploadImageAndSearch_request : FrontendRequest := .post "/upload"

/-- `searchImages` POSTs the query to `/search`. -/
def searchImages_request : FrontendRequest := .post "/search"

/-- `indexImages` POSTs the URL list to `/index`. -/
def indexImages_request : FrontendRequest := .post "/index"

/-- `getHealthStatus` GETs `/health`. -/
def getHealthStatus_request : FrontendRequest := .get "/health"

/-- `getSystemStats` GETs `/stats`. -/
def getSystemStats_request : FrontendRequest := .get "/stats"

/-- Modelled from the spec: `searchImagesByText` is imported by the
`TextSearch` component but is not among the helpers defined in the
`api.js` at hand.  Per the repository README ("Text-based Search": `POST
/search` with a JSON `query`), the text search targets `/search`. -/
def searchImagesByText_request : FrontendRequest := .post "/search"

/-- Modelled from the spec: `uploadCSVWithProgress` is imported and called
by `CSVUpload.js` but not defined in the `api.js` at hand.  The spec
describes a CSV bulk-indexing job started by the client and answered with
"a generated task identifier"; the initiation request is modelled as its
own request constructor carrying the column name, since its path is none
of the five documented fixed paths (none of which starts a tracked job). -/
def uploadCSVWithProgress_request (columnName : String) : FrontendRequest :=
  .csvUploadInit columnName

/-- Modelled from the spec: `getUploadProgress` is imported and called by
the polling `useEffect` of `CSVUpload.js` but not defined in the `api.js`
at hand.  The spec describes "client-side polling ... against a
server-side in-memory job map keyed by a generated task identifier", so
the poll is a request for the progress resource of the given task,
modelled as its own constructor carrying the task identifier. -/
def getUploadProgress_request (taskId : String) : FrontendRequest :=
  .progressPoll taskId

/-- The five fixed REST endpoints named by the spec, as issued by the five
helpers of `api.js`. -/
def namedFiveEndpoints : List FrontendRequest :=
  [uploadImageAndSearch_request, searchImages_request, indexImages_request,
   getHealthStatus_request, getSystemStats_request]

/-! ## `services/api.js`: the response interceptor -/

/-- The parts of `error.response` the interceptor reads: the HTTP status
and the optional `data.detail` / `data.message` fields (`none` models an
absent field, covering both an absent `data` object and an absent key). -/
structure HttpErrorResponse where
  status : Nat
  detail : Option String
  message : Option String
deriving DecidableEq, Repr

/-- The parts of an axios error object the interceptor reads:
`error.response` (present iff the server answered with an error status),
`error.request` (truthy iff the request was sent), and `error.message`. -/
structure AxiosError where
  response : Option HttpErrorResponse
  hasRequest : Bool
  message : Option String
deriving DecidableEq, Repr

/-- The response interceptor of `api.js`: the message of the `Error` it
throws for a rejected response.  Mirrors the `if (error.response) /
else if (error.request) / else` chain, where `||` picks the first truthy
operand (so an absent or empty string falls through). -/
def interceptorMessage (e : AxiosError) : String :=
  match e.response with
  | some r =>
    if truthyStr r.detail then r.detail.getD ""
    else if truthyStr r.message then r.message.getD ""
    else "Server error: " ++ toString r.status
  | none =>
    if e.hasRequest then "No response from server. Please check your connection."
    else if truthyStr e.message then e.message.getD ""
    else "An unexpected error occurred"

/-- Stated from the claim's words, for comparison with
`interceptorMessage`: "response.data.detail if present, otherwise
response.data.message if present, otherwise 'Server error: ' followed by
the HTTP status code", where "present" is read as the field existing. -/
def claimedInterceptorMessage (e : AxiosError) : String :=
  match e.response with
  | some r =>
    match r.detail with
    | some d => d
    | none =>
      match r.message with
      | some m => m
      | none => "Server error: " ++ toString r.status
  | none =>
    if e.hasRequest then "No response from server. Please check your connection."
    else
      match e.message with
      | some m => m
      | none => "An unexpected error occurred"

/-! ## `CSVUpload.js` -/

/-- The progress payload returned by the progress endpoint, as read by the
polling callback: `status`, `current`, `total`, `errors`, `current_url`. -/
structure ProgressData where
  status : String
  current : Int
  total : Int
  errors : List String
  current_url : Option String
deriving DecidableEq, Repr

/-- The `uploadResults` record built by the completion branch of the
polling callback. -/
structure UploadResults where
  message : String
  total_urls : Int
  successful_indexes : Int
  failed_urls : List String
  processing_time : Option Int
deriving DecidableEq, Repr

/-- The `useState` fields of the `CSVUpload` component.  `selectedFile`
holds the file name when a file is selected, `none` otherwise. -/
structure CSVState where
  selectedFile : Option String
  columnName : String
  isUploading : Bool
  uploadResults : Option UploadResults
  progress : Option ProgressData
  taskId : Option String
deriving DecidableEq, Repr

/-- The initial `CSVUpload` state: no file, column name `"url"`, not
uploading, no results, no progress, no task id. -/
def initialCSVState : CSVState :=
  { selectedFile := none, columnName := "url", isUploading := false,
    uploadResults := none, progress := none, taskId := none }

/-- The polling `useEffect` of `CSVUpload`: the interval it installs, in
milliseconds.  An interval of exactly 2000 ms exists iff `taskId` is
truthy and `isUploading` holds; otherwise no interval (hence no poll) is
installed. -/
def pollingIntervalMs (s : CSVState) : Option Nat :=
  if truthyStr s.taskId ∧ s.isUploading then some 2000 else none

/-- Whether a reported status is terminal for the polling loop
(`'completed'` or `'error'`). -/
def terminalStatus (st : String) : Bool :=
  st == "completed" || st == "error"

/-- The body of the polling callback once `getUploadProgress` has resolved
with `p`: always `setProgress(p)`; on a terminal status, stop uploading
(which clears the interval) and either build the `uploadResults` record
and fire a success toast (status `'completed'`) or fire an error toast
(status `'error'`); on any other status, change nothing else. -/
def handleProgressResponse (s : CSVState) (p : ProgressData) :
    CSVState × List Effect :=
  let s1 := { s with progress := some p }
  if terminalStatus p.status then
    let s2 := { s1 with isUploading := false }
    if p.status == "completed" then
      let successCount : Int := p.current - p.errors.length
      let results : UploadResults :=
        { message := "Processing completed! " ++ toString successCount ++ "/"
            ++ toString p.total ++ " images indexed successfully."
        , total_urls := p.total
        , successful_indexes := successCount
        , failed_urls := p.errors
        , processing_time := none }
      ({ s2 with uploadResults := some results },
       [Effect.toastSuccess ("Successfully indexed " ++ toString successCount ++ " images!")])
    else
      (s2, [Effect.toastError "Upload failed"])
  else
    (s1, [])

/-- The outcome of one awaited `getUploadProgress` call: either the
progress payload, or a rejection with an error message. -/
inductive PollResult where
  | ok (p : ProgressData)
  | err (msg : String)
deriving DecidableEq, Repr

/-- One firing of the interval callback: issue the progress poll for the
current task, then either run the response body or (on rejection) only
log to the console — the `catch` block fires no toast and leaves the
state unchanged. -/
def pollTick (s : CSVState) (r : PollResult) : CSVState × List Effect :=
  let req := Effect.request (getUploadProgress_request (s.taskId.getD ""))
  match r with
  | .ok p =>
    let out := handleProgressResponse s p
    (out.1, req :: out.2)
  | .err m =>
    (s, [req, Effect.consoleError ("Error fetching progress: " ++ m)])

/-- The polling loop over a sequence of poll outcomes: a tick only fires
while the effect's interval is installed (`pollingIntervalMs ≠ none`);
once the interval is absent — in particular after a terminal status
cleared it — no further outcome is consumed and no further effect is
fired. -/
def runPolls : CSVState → List PollResult → CSVState × List Effect
  | s, [] => (s, [])
  | s, r :: rs =>
    if pollingIntervalMs s = none then (s, [])
    else
      let t := pollTick s r
      let u := runPolls t.1 rs
      (u.1, t.2 ++ u.2)

/-- The outcome of an awaited backend promise carrying a value of type
`α`: resolution with the value, or rejection with an error message. -/
inductive ApiOutcome (α : Type) where
  | ok (v : α)
  | fail (msg : String)
deriving DecidableEq, Repr

/-- `handleUpload` of `CSVUpload`: guard on a selected file, then on a
non-blank column name; otherwise mark uploading, clear previous results
and progress, call `uploadCSVWithProgress`, and either record the new
task id with a success toast or (on rejection) log, toast the error and
stop uploading.  `o` is the outcome of the awaited call. -/
def csvHandleUpload (s : CSVState) (o : ApiOutcome String) :
    CSVState × List Effect :=
  match s.selectedFile with
  | none => (s, [Effect.toastError "Please select a file first"])
  | some _ =>
    if jsTrim s.columnName = "" then
      (s, [Effect.toastError "Please specify the column name containing URLs"])
    else
      let s1 := { s with isUploading := true, uploadResults := none, progress := none }
      let req := Effect.request (uploadCSVWithProgress_request (jsTrim s.columnName))
      match o with
      | .ok tid =>
        ({ s1 with taskId := some tid },
         [req, Effect.toastSuccess "Upload started! Processing images..."])
      | .fail m =>
        ({ s1 with isUploading := false },
         [req, Effect.consoleError ("CSV upload error: " ++ m),
          Effect.toastError ("Upload failed: " ++ m)])

/-- `Math.round` on an exact rational: round half away from zero is
`⌊q + 1/2⌋` for JavaScript's `Math.round` (half rounds toward `+∞`). -/
def jsRound (q : ℚ) : ℤ := ⌊q + 1 / 2⌋

/-- `getProgressPercentage` of `CSVUpload`: `0` when `progress` is null or
`progress.total === 0`, else `Math.round((current / total) * 100)`,
with the arithmetic modelled exactly over ℚ. -/
def getProgressPercentage (progress : Option ProgressData) : ℤ :=
  match progress with
  | none => 0
  | some p =>
    if p.total = 0 then 0
    else jsRound ((p.current : ℚ) / (p.total : ℚ) * 100)

/-- The render of the Upload Results section lists
`failed_urls.slice(0, 10)`. -/
def displayedFailedUrls (u : UploadResults) : List String :=
  u.failed_urls.take 10

/-! ## `ImageUpload.js` and the `TextSearch` component -/

/-- The `useState` fields of `ImageUpload` read by `handleSearch`. -/
structure ImageUploadState where
  selectedImage : Option String
  previewUrl : Option String
deriving DecidableEq, Repr

/-- `handleSearch` of `ImageUpload`: guard on a selected image, else fire
`onSearchStart`, call `uploadImageAndSearch`, and on resolution complete
with the results and a success toast, on rejection log, toast
`'Search failed: ' + error.message` and complete with `null`. -/
def imageHandleSearch (s : ImageUploadState) (o : ApiOutcome Bool) :
    ImageUploadState × List Effect :=
  match s.selectedImage with
  | none => (s, [Effect.toastError "Please select an image first"])
  | some _ =>
    match o with
    | .ok _ =>
      (s, [Effect.searchStart, Effect.request uploadImageAndSearch_request,
           Effect.searchComplete true,
           Effect.toastSuccess "Search completed successfully!"])
    | .fail m =>
      (s, [Effect.searchStart, Effect.request uploadImageAndSearch_request,
           Effect.consoleError ("Search error: " ++ m),
           Effect.toastError ("Search failed: " ++ m),
           Effect.searchComplete false])

/-- The `useState` field of `TextSearch`. -/
structure TextSearchState where
  query : String
deriving DecidableEq, Repr

/-- `handleSearch` of `TextSearch`: guard on a non-blank trimmed query,
else fire `onSearchStart`, call `searchImagesByText` on the trimmed
query, and on resolution complete with the results and a success toast,
on rejection log, toast `'Search failed: ' + error.message` and complete
with `null`. -/
def textHandleSearch (s : TextSearchState) (o : ApiOutcome Bool) :
    TextSearchState × List Effect :=
  if jsTrim s.query = "" then
    (s, [Effect.toastError "Please enter a search query"])
  else
    match o with
    | .ok _ =>
      (s, [Effect.searchStart, Effect.request searchImagesByText_request,
           Effect.searchComplete true,
           Effect.toastSuccess "Search completed successfully!"])
    | .fail m =>
      (s, [Effect.searchStart, Effect.request searchImagesByText_request,
           Effect.consoleError ("Text search error: " ++ m),
           Effect.toastError ("Search failed: " ++ m),
           Effect.searchComplete false])

/-! ## `App.js` -/

/-- The `useState` fields of `App`: the current search results (opaque
payload, `none` for `null`), the loading flag, and the active tab. -/
structure AppState where
  searchResults : Option String
  isLoading : Bool
  activeTab : String
deriving DecidableEq, Repr

/-- The initial `App` state: no results, not loading, tab `'image'`. -/
def initialAppState : AppState :=
  { searchResults := none, isLoading := false, activeTab := "image" }

/-- `switchTab` of `App`: when not loading, set the active tab and clear
the search results; when loading, do nothing. -/
def switchTab (s : AppState) (tab : String) : AppState :=
  if s.isLoading then s
  else { s with activeTab := tab, searchResults := none }

/-- `handleSearchStart` of `App`. -/
def handleSearchStart (s : AppState) : AppState :=
  { s with isLoading := true, searchResults := none }

/-- `handleSearchComplete` of `App`. -/
def handleSearchComplete (s : AppState) (results : Option String) : AppState :=
  { s with searchResults := results, isLoading := false }

/-- The events the rendered `App` page can trigger: the three tab buttons
(which call `switchTab` with the literals `'image'`, `'text'`, `'csv'`)
and the search callbacks passed down to the search components. -/
inductive AppEvent where
  | clickImageTab
  | clickTextTab
  | clickCsvTab
  | searchStart
  | searchComplete (results : Option String)
deriving DecidableEq, Repr

/-- One `App` state transition per UI event. -/
def appStep (s : AppState) : AppEvent → AppState
  | .clickImageTab => switchTab s "image"
  | .clickTextTab => switchTab s "text"
  | .clickCsvTab => switchTab s "csv"
  | .searchStart => handleSearchStart s
  | .searchComplete r => handleSearchComplete s r

/-- Run a sequence of UI events from a state. -/
def appRun (s : AppState) (es : List AppEvent) : AppState :=
  es.foldl appStep s

/-- The three tab values of the single-page application. -/
def validTab (t : String) : Bool :=
  t == "image" || t == "text" || t == "csv"

/-- A concrete `CSVUpload` state with an active job, used to evaluate the
polling loop at a concrete input. -/
def csvActiveState : CSVState :=
  { selectedFile := some "urls.csv", columnName := "url", isUploading := true,
    uploadResults := none, progress := none, taskId := some "t1" }

/-- A concrete `'completed'` progress payload with two failed rows, used to
evaluate the completion branch at a concrete input. -/
def completedProbe : ProgressData :=
  { status := "completed", current := 5, total := 6,
    errors := ["http://a/1.jpg", "http://a/2.jpg"], current_url := none }

/-- A concrete non-terminal progress payload. -/
def processingProbe : ProgressData :=
  { status := "processing", current := 2, total := 6, errors := [],
    current_url := some "http://a/3.jpg" }

/-- A concrete axios error whose `data.detail` is the empty string while
`data.message` is non-empty. -/
def interceptorEmptyDetailError : AxiosError :=
  { response := some { status := 500, detail := some "", message := some "Boom" },
    hasRequest := true, message := none }

/-- A concrete `ImageUpload` state with an image selected. -/
def imageReadyState : ImageUploadState :=
  { selectedImage := some "cat.png", previewUrl := some "blob:cat" }

/-- A concrete `ImageUpload` state with no image selected. -/
def imageEmptyState : ImageUploadState :=
  { selectedImage := none, previewUrl := none }

/-- A concrete `TextSearch` state with a non-blank query. -/
def textProbeState : TextSearchState := { query := "  sunset  " }

/-- A concrete `TextSearch` state with a whitespace-only query. -/
def textBlankState : TextSearchState := { query := "   " }

/-- A concrete `CSVUpload` state with a file selected but a blank column
name. -/
def csvBlankColumnState : CSVState :=
  { selectedFile := some "urls.csv", columnName := "  ", isUploading := false,
    uploadResults := none, progress := none, taskId := none }

/-! ## Theorems -/

/-- Helper: once the polling interval is absent, the loop consumes nothing
and fires nothing. -/
lemma runPolls_inactive (s : CSVState) (rs : List PollResult)
    (h : pollingIntervalMs s = none) : runPolls s rs = (s, []) := by
  cases rs <;> simp [runPolls, h]

/-- Helper: the polling callback never changes `taskId`. -/
lemma handleProgressResponse_taskId (s : CSVState) (p : ProgressData) :
    (handleProgressResponse s p).1.taskId = s.taskId := by
  by_cases h : terminalStatus p.status = true
  · by_cases h2 : (p.status == "completed") = true <;>
      simp [handleProgressResponse, h, h2]
  · simp [handleProgressResponse, h]

/-- C1: while a task identifier is set and the upload is in progress, the
`CSVUpload` polling effect installs an interval of exactly 2000 ms whose
every tick issues the progress poll for that task; when no task identifier
is set or the upload is not in progress, no interval exists and no
progress poll is issued. -/
theorem csv_polling_two_second_interval (s : CSVState) (tid : String)
    (r : PollResult) (rs : List PollResult) :
    (s.taskId = some tid → tid ≠ "" → s.isUploading = true →
      pollingIntervalMs s = some 2000 ∧
      (runPolls s (r :: rs)).2.head? =
        some (Effect.request (FrontendRequest.progressPoll tid))) ∧
    (s.taskId = none ∨ s.isUploading = false →
      pollingIntervalMs s = none ∧ runPolls s (r :: rs) = (s, [])) := by
  constructor
  · intro htid hne hup
    have hpoll : pollingIntervalMs s = some 2000 := by
      simp [pollingIntervalMs, truthyStr, htid, hup, hne]
    refine ⟨hpoll, ?_⟩
    rw [runPolls]
    simp only [hpoll]
    cases r <;>
      simp [pollTick, htid, getUploadProgress_request]
  · intro h
    have hpoll : pollingIntervalMs s = none := by
      rcases h with h | h
      · simp [pollingIntervalMs, truthyStr, h]
      · simp [pollingIntervalMs, h]
    exact ⟨hpoll, runPolls_inactive s (r :: rs) hpoll⟩

/-- C1 witness: the concrete active job state polls its task at 2000 ms. -/
theorem csv_polling_two_second_interval_witness :
    pollingIntervalMs csvActiveState = some 2000 ∧
    (runPolls csvActiveState (PollResult.err "boom" :: [])).2.head? =
      some (Effect.request (FrontendRequest.progressPoll "t1")) :=
  (csv_polling_two_second_interval csvActiveState "t1"
    (PollResult.err "boom") []).1 rfl (by decide) rfl

/-- C2: under an active polling loop, a polled response stops the loop
(`isUploading` becomes `false`, hence the interval is cleared) exactly
when its status is `'completed'` or `'error'`; any other status keeps the
loop polling at 2000 ms; and after a terminal response the loop consumes
nothing further, whatever responses would follow — the task is never
polled again. -/
theorem csv_polling_stops_on_terminal (s : CSVState) (p : ProgressData)
    (rs : List PollResult)
    (htid : truthyStr s.taskId = true) (hup : s.isUploading = true) :
    ((handleProgressResponse s p).1.isUploading = false ↔
      terminalStatus p.status = true) ∧
    (terminalStatus p.status = true →
      pollingIntervalMs (handleProgressResponse s p).1 = none ∧
      runPolls s (PollResult.ok p :: rs) = pollTick s (PollResult.ok p)) ∧
    (terminalStatus p.status = false →
      (handleProgressResponse s p).1.isUploading = true ∧
      pollingIntervalMs (handleProgressResponse s p).1 = some 2000) := by
  have hactive : pollingIntervalMs s = some 2000 := by
    simp [pollingIntervalMs, htid, hup]
  refine ⟨?_, ?_, ?_⟩
  · by_cases h : terminalStatus p.status = true
    · by_cases h2 : (p.status == "completed") = true <;>
        simp [handleProgressResponse, h, h2]
    · simp [handleProgressResponse, h, hup]
  · intro h
    have hstopped : (handleProgressResponse s p).1.isUploading = false := by
      by_cases h2 : (p.status == "completed") = true <;>
        simp [handleProgressResponse, h, h2]
    have hcleared : pollingIntervalMs (handleProgressResponse s p).1 = none := by
      simp [pollingIntervalMs, hstopped]
    refine ⟨hcleared, ?_⟩
    rw [runPolls]
    simp only [hactive]
    have : (pollTick s (PollResult.ok p)).1 = (handleProgressResponse s p).1 := by
      simp [pollTick]
    rw [runPolls_inactive _ rs (this ▸ hcleared)]
    simp
  · intro h
    have hkeep : (handleProgressResponse s p).1.isUploading = true := by
      simp [handleProgressResponse, h, hup]
    refine ⟨hkeep, ?_⟩
    have htid' : truthyStr (handleProgressResponse s p).1.taskId = true := by
      rw [handleProgressResponse_taskId]; exact htid
    simp [pollingIntervalMs, htid', hkeep]

/-- C2 witness: a `'completed'` response on the concrete active job stops
the loop, and a later `'processing'` response is never consumed. -/
theorem csv_polling_stops_on_terminal_witness :
    pollingIntervalMs (handleProgressResponse csvActiveState completedProbe).1 = none ∧
    runPolls csvActiveState
        (PollResult.ok completedProbe :: [PollResult.ok processingProbe]) =
      pollTick csvActiveState (PollResult.ok completedProbe) :=
  (csv_polling_stops_on_terminal csvActiveState completedProbe
    [PollResult.ok processingProbe] rfl rfl).2.1 (by decide)

/-- C6: a `'completed'` poll is treated as success regardless of the
reported errors: the completion branch builds the results record with
`successful_indexes = current - errors.length` and
`failed_urls = errors`, fires a success toast (and no error toast), and
issues no backend request — no failed row is re-processed; the render
lists only the first 10 failed URLs. -/
theorem csv_completed_partial_failures (s : CSVState) (p : ProgressData)
    (hst : p.status = "completed") :
    (handleProgressResponse s p).1.uploadResults = some
      { message := "Processing completed! "
          ++ toString (p.current - (p.errors.length : Int)) ++ "/"
          ++ toString p.total ++ " images indexed successfully."
      , total_urls := p.total
      , successful_indexes := p.current - (p.errors.length : Int)
      , failed_urls := p.errors
      , processing_time := none } ∧
    (handleProgressResponse s p).2 =
      [Effect.toastSuccess ("Successfully indexed "
        ++ toString (p.current - (p.errors.length : Int)) ++ " images!")] ∧
    (handleProgressResponse s p).2.filter isRequestEffect = [] ∧
    (handleProgressResponse s p).1.uploadResults.map displayedFailedUrls =
      some (p.errors.take 10) := by
  have h1 : terminalStatus p.status = true := by simp [terminalStatus, hst]
  have h2 : (p.status == "completed") = true := by simp [hst]
  refine ⟨?_, ?_, ?_, ?_⟩ <;>
    simp [handleProgressResponse, h1, h2, displayedFailedUrls, isRequestEffect]

/-- C6 witness: the concrete completed payload with two failed rows yields
`successful_indexes = 3`, the two failed URLs, a success toast and no
request. -/
theorem csv_completed_partial_failures_witness :
    (handleProgressResponse csvActiveState completedProbe).1.uploadResults = some
      { message := "Processing completed! 3/6 images indexed successfully."
      , total_urls := 6
      , successful_indexes := 3
      , failed_urls := ["http://a/1.jpg", "http://a/2.jpg"]
      , processing_time := none } ∧
    (handleProgressResponse csvActiveState completedProbe).2 =
      [Effect.toastSuccess "Successfully indexed 3 images!"] ∧
    (handleProgressResponse csvActiveState completedProbe).2.filter
      isRequestEffect = [] ∧
    (handleProgressResponse csvActiveState completedProbe).1.uploadResults.map
      displayedFailedUrls = some ["http://a/1.jpg", "http://a/2.jpg"] := by
  have h := csv_completed_partial_failures csvActiveState completedProbe rfl
  simpa [completedProbe] using h

/-- C8: `getProgressPercentage` is total and never divides by zero: it is
`0` when `progress` is null or `progress.total = 0`, otherwise it is
`Math.round((current / total) * 100)`, and this value lies in `[0, 100]`
whenever `0 ≤ current ≤ total`. -/
theorem getProgressPercentage_safe (p : ProgressData) :
    getProgressPercentage none = 0 ∧
    (p.total = 0 → getProgressPercentage (some p) = 0) ∧
    (p.total ≠ 0 → getProgressPercentage (some p) =
      jsRound ((p.current : ℚ) / (p.total : ℚ) * 100)) ∧
    (0 ≤ p.current → p.current ≤ p.total →
      0 ≤ getProgressPercentage (some p) ∧
      getProgressPercentage (some p) ≤ 100) := by
  refine ⟨rfl, ?_, ?_, ?_⟩
  · intro h; simp [getProgressPercentage, h]
  · intro h; simp [getProgressPercentage, h]
  · intro hc hct
    by_cases h : p.total = 0
    · simp [getProgressPercentage, h]
    · have htpos : (0 : Int) < p.total :=
        lt_of_le_of_ne (le_trans hc hct) (Ne.symm h)
    
      have htposQ : (0 : ℚ) < (p.total : ℚ) := by exact_mod_cast htpos
      have hcQ : (0 : ℚ) ≤ (p.current : ℚ) := by exact_mod_cast hc
      have hctQ : (p.current : ℚ) ≤ (p.total : ℚ) := by exact_mod_cast hct
      have hq0 : (0 : ℚ) ≤ (p.current : ℚ) / (p.total : ℚ) * 100 := by positivity
      have hq1 : (p.current : ℚ) / (p.total : ℚ) * 100 ≤ 100 := by
        have : (p.current : ℚ) / (p.total : ℚ) ≤ 1 :=
          (div_le_one htposQ).mpr hctQ
        nlinarith
      simp only [getProgressPercentage, h, if_false, jsRound]
      constructor
      · rw [Int.le_floor]
        push_cast
        linarith
      · have : ⌊(p.current : ℚ) / (p.total : ℚ) * 100 + 1 / 2⌋ < 101 := by
          rw [Int.floor_lt]
          push_cast
          linarith
        omega

/-- C8 witness: at `current = 5`, `total = 6` the percentage is
`Math.round(500/6) = 83`, within `[0, 100]`. -/
theorem getProgressPercentage_safe_witness :
    getProgressPercentage (some completedProbe) =
      jsRound ((5 : ℚ) / 6 * 100) ∧
    0 ≤ getProgressPercentage (some completedProbe) ∧
    getProgressPercentage (some completedProbe) ≤ 100 :=
  ⟨(getProgressPercentage_safe completedProbe).2.2.1 (by decide),
   (getProgressPercentage_safe completedProbe).2.2.2 (by decide) (by decide)⟩

/-- C5 counterexample: with `data.detail` present but equal to the empty
string and `data.message` equal to `"Boom"`, the interceptor's `||` chain
skips the falsy `detail` and surfaces `"Boom"`, while the claim's
"detail if present" precedence would surface `""`. -/
theorem interceptor_empty_detail_diverges :
    interceptorMessage interceptorEmptyDetailError = "Boom" ∧
    claimedInterceptorMessage interceptorEmptyDetailError = "" ∧
    interceptorMessage interceptorEmptyDetailError ≠
      claimedInterceptorMessage interceptorEmptyDetailError := by
  refine ⟨rfl, rfl, ?_⟩
  decide

/-- C5 (amended): the interceptor's surfaced message follows the
precedence with "present" strengthened to "present and non-empty"
(`truthyStr`): if the server responded, `data.detail` when truthy, else
`data.message` when truthy, else `'Server error: '` plus the status; if
only the request exists, the no-response message; otherwise the original
error message when truthy, else `'An unexpected error occurred'`. -/
theorem interceptor_message_precedence (e : AxiosError) (r : HttpErrorResponse) :
    (e.response = some r → truthyStr r.detail = true →
      interceptorMessage e = r.detail.getD "") ∧
    (e.response = some r → truthyStr r.detail = false →
      truthyStr r.message = true →
      interceptorMessage e = r.message.getD "") ∧
    (e.response = some r → truthyStr r.detail = false →
      truthyStr r.message = false →
      interceptorMessage e = "Server error: " ++ toString r.status) ∧
    (e.response = none → e.hasRequest = true →
      interceptorMessage e =
        "No response from server. Please check your connection.") ∧
    (e.response = none → e.hasRequest = false → truthyStr e.message = true →
      interceptorMessage e = e.message.getD "") ∧
    (e.response = none → e.hasRequest = false → truthyStr e.message = false →
      interceptorMessage e = "An unexpected error occurred") := by
  refine ⟨?_, ?_, ?_, ?_, ?_, ?_⟩ <;> intro h <;>
    simp_all [interceptorMessage]

/-- C5 witness: the interceptor at the concrete error with empty `detail`
and message `"Boom"` surfaces `"Boom"` by the amended precedence. -/
theorem interceptor_message_precedence_witness :
    interceptorMessage interceptorEmptyDetailError = "Boom" :=
  (interceptor_message_precedence interceptorEmptyDetailError
    { status := 500, detail := some "", message := some "Boom" }).2.1
    rfl (by decide) (by decide)

/-- C4 counterexample: on an active CSV job, a rejected progress poll only
issues the poll and logs to the console — no toast notification is
fired. -/
theorem poll_failure_fires_no_toast :
    (pollTick csvActiveState (PollResult.err "Network Error")).2 =
      [Effect.request (FrontendRequest.progressPoll "t1"),
       Effect.consoleError "Error fetching progress: Network Error"] ∧
    (pollTick csvActiveState (PollResult.err "Network Error")).2.filter
      isToastEffect = [] := by
  refine ⟨rfl, rfl⟩

/-- C4 (amended): failed image searches, text searches and CSV upload
initiations each surface a toast carrying the error's message, but a
failed progress poll during an active CSV job is only logged to the
console and fires no toast. -/
theorem error_toast_surfacing (is : ImageUploadState) (f : String)
    (ts : TextSearchState) (cs : CSVState) (g : String)
    (m₁ m₂ m₃ m₄ : String) :
    (is.selectedImage = some f →
      Effect.toastError ("Search failed: " ++ m₁) ∈
        (imageHandleSearch is (ApiOutcome.fail m₁)).2) ∧
    ((jsTrim ts.query) ≠ "" →
      Effect.toastError ("Search failed: " ++ m₂) ∈
        (textHandleSearch ts (ApiOutcome.fail m₂)).2) ∧
    (cs.selectedFile = some g → (jsTrim cs.columnName) ≠ "" →
      Effect.toastError ("Upload failed: " ++ m₃) ∈
        (csvHandleUpload cs (ApiOutcome.fail m₃)).2) ∧
    (pollTick cs (PollResult.err m₄)).2.filter isToastEffect = [] ∧
    Effect.consoleError ("Error fetching progress: " ++ m₄) ∈
      (pollTick cs (PollResult.err m₄)).2 := by
  refine ⟨?_, ?_, ?_, ?_, ?_⟩
  · intro h; simp [imageHandleSearch, h]
  · intro h; simp [textHandleSearch, h]
  · intro h hc; simp [csvHandleUpload, h, hc]
  · simp [pollTick, isToastEffect]
  · simp [pollTick]

/-- C4 witness: the failure toasts at concrete states and messages, and
the toast-free poll failure. -/
theorem error_toast_surfacing_witness :
    Effect.toastError "Search failed: e1" ∈
      (imageHandleSearch imageReadyState (ApiOutcome.fail "e1")).2 ∧
    Effect.toastError "Search failed: e2" ∈
      (textHandleSearch textProbeState (ApiOutcome.fail "e2")).2 ∧
    Effect.toastError "Upload failed: e3" ∈
      (csvHandleUpload csvActiveState (ApiOutcome.fail "e3")).2 ∧
    (pollTick csvActiveState (PollResult.err "e4")).2.filter
      isToastEffect = [] := by
  obtain ⟨h1, h2, h3, h4, -⟩ :=
    error_toast_surfacing imageReadyState "cat.png" textProbeState
      csvActiveState "urls.csv" "e1" "e2" "e3" "e4"
  exact ⟨h1 rfl, h2 (by decide), h3 rfl (by decide), h4⟩

/-- C3 counterexample: the polling loop of an active CSV job issues a
progress poll, a backend request that is none of the five endpoints
`/upload`, `/search`, `/index`, `/health`, `/stats`. -/
theorem frontend_polls_outside_five_endpoints :
    Effect.request (FrontendRequest.progressPoll "t1") ∈
      (pollTick csvActiveState (PollResult.err "boom")).2 ∧
    FrontendRequest.progressPoll "t1" ∉ namedFiveEndpoints := by
  refine ⟨?_, ?_⟩ <;> decide

/-- C3 (amended): the five helpers of `api.js` target exactly the five
documented endpoints, and every request of the image/text search flows
lies in that set; but the CSV bulk-indexing flow additionally calls the
CSV-upload initiation and the per-task progress endpoints, which are
outside the five. -/
theorem api_endpoint_targets (is : ImageUploadState) (ts : TextSearchState)
    (o o' : ApiOutcome Bool) (t c : String) (r r' : FrontendRequest) :
    uploadImageAndSearch_request = FrontendRequest.post "/upload" ∧
    searchImages_request = FrontendRequest.post "/search" ∧
    indexImages_request = FrontendRequest.post "/index" ∧
    getHealthStatus_request = FrontendRequest.get "/health" ∧
    getSystemStats_request = FrontendRequest.get "/stats" ∧
    searchImagesByText_request = FrontendRequest.post "/search" ∧
    (Effect.request r ∈ (imageHandleSearch is o).2 →
      r ∈ namedFiveEndpoints) ∧
    (Effect.request r' ∈ (textHandleSearch ts o').2 →
      r' ∈ namedFiveEndpoints) ∧
    getUploadProgress_request t ∉ namedFiveEndpoints ∧
    uploadCSVWithProgress_request c ∉ namedFiveEndpoints := by
  refine ⟨rfl, rfl, rfl, rfl, rfl, rfl, ?_, ?_, ?_, ?_⟩
  · intro h
    cases his : is.selectedImage with
    | none => simp [imageHandleSearch, his] at h
    | some f =>
      cases o with
      | ok v =>
        simp [imageHandleSearch, his] at h
        subst h; simp [namedFiveEndpoints]
      | fail m =>
        simp [imageHandleSearch, his] at h
        subst h; simp [namedFiveEndpoints]
  · intro h
    by_cases hq : (jsTrim ts.query) = ""
    · simp [textHandleSearch, hq] at h
    · cases o' with
      | ok v =>
        simp [textHandleSearch, hq] at h
        subst h
        simp [namedFiveEndpoints, searchImagesByText_request, searchImages_request]
      | fail m =>
        simp [textHandleSearch, hq] at h
        subst h
        simp [namedFiveEndpoints, searchImagesByText_request, searchImages_request]
  · simp [namedFiveEndpoints, getUploadProgress_request,
      uploadImageAndSearch_request, searchImages_request, indexImages_request,
      getHealthStatus_request, getSystemStats_request]
  · simp [namedFiveEndpoints, uploadCSVWithProgress_request,
      uploadImageAndSearch_request, searchImages_request, indexImages_request,
      getHealthStatus_request, getSystemStats_request]

/-- C3 witness: the image-search request lies in the five-endpoint set;
the progress poll for a concrete task does not. -/
theorem api_endpoint_targets_witness :
    FrontendRequest.post "/upload" ∈ namedFiveEndpoints ∧
    getUploadProgress_request "t1" ∉ namedFiveEndpoints := by
  obtain ⟨-, -, -, -, -, -, h7, -, h9, -⟩ :=
    api_endpoint_targets imageReadyState textProbeState
      (ApiOutcome.fail "x") (ApiOutcome.fail "y") "t1" "url"
      (FrontendRequest.post "/upload") (FrontendRequest.post "/search")
  exact ⟨h7 (by decide), h9⟩

/-- C9: each precondition guard returns after only an error toast: with no
image, an empty trimmed query, no file, or a blank column name, the
handler leaves its component state unchanged and fires exactly the guard
toast — no backend request, no `onSearchStart`, no other effect. -/
theorem guard_clauses_no_request (is : ImageUploadState) (ts : TextSearchState)
    (cs cs' : CSVState) (f : String)
    (o₁ o₂ : ApiOutcome Bool) (o₃ o₄ : ApiOutcome String) :
    (is.selectedImage = none →
      imageHandleSearch is o₁ =
        (is, [Effect.toastError "Please select an image first"])) ∧
    ((jsTrim ts.query) = "" →
      textHandleSearch ts o₂ =
        (ts, [Effect.toastError "Please enter a search query"])) ∧
    (cs.selectedFile = none →
      csvHandleUpload cs o₃ =
        (cs, [Effect.toastError "Please select a file first"])) ∧
    (cs'.selectedFile = some f → (jsTrim cs'.columnName) = "" →
      csvHandleUpload cs' o₄ =
        (cs', [Effect.toastError "Please specify the column name containing URLs"])) := by
  refine ⟨?_, ?_, ?_, ?_⟩
  · intro h; simp [imageHandleSearch, h]
  · intro h; simp [textHandleSearch, h]
  · intro h; simp [csvHandleUpload, h]
  · intro h hc; simp [csvHandleUpload, h, hc]

/-- C9 witness: the four guards at concrete states. -/
theorem guard_clauses_no_request_witness :
    imageHandleSearch imageEmptyState (ApiOutcome.fail "x") =
      (imageEmptyState, [Effect.toastError "Please select an image first"]) ∧
    textHandleSearch textBlankState (ApiOutcome.fail "x") =
      (textBlankState, [Effect.toastError "Please enter a search query"]) ∧
    csvHandleUpload initialCSVState (ApiOutcome.fail "x") =
      (initialCSVState, [Effect.toastError "Please select a file first"]) ∧
    csvHandleUpload csvBlankColumnState (ApiOutcome.fail "x") =
      (csvBlankColumnState,
        [Effect.toastError "Please specify the column name containing URLs"]) := by
  obtain ⟨h1, h2, h3, h4⟩ :=
    guard_clauses_no_request imageEmptyState textBlankState initialCSVState
      csvBlankColumnState "urls.csv" (ApiOutcome.fail "x") (ApiOutcome.fail "x")
      (ApiOutcome.fail "x") (ApiOutcome.fail "x")
  exact ⟨h1 rfl, h2 (by decide), h3 rfl, h4 rfl (by decide)⟩

/-- Helper: each UI event of `App` keeps the active tab among the three
tab values. -/
lemma appStep_preserves_validTab (s : AppState) (e : AppEvent)
    (h : validTab s.activeTab = true) :
    validTab (appStep s e).activeTab = true := by
  by_cases hl : s.isLoading = true
  · cases e <;>
      simp [appStep, switchTab, handleSearchStart, handleSearchComplete, hl, h]
  · have hl' : s.isLoading = false := by simpa using hl
    cases e <;>
      simp_all [appStep, switchTab, handleSearchStart, handleSearchComplete,
        validTab]

/-- Helper: running any sequence of UI events keeps the active tab among
the three tab values. -/
lemma appRun_preserves_validTab (es : List AppEvent) :
    ∀ s : AppState, validTab s.activeTab = true →
      validTab (appRun s es).activeTab = true := by
  induction es with
  | nil => intro s h; simpa [appRun] using h
  | cons e es ih =>
    intro s h
    have hstep := appStep_preserves_validTab s e h
    simpa [appRun] using ih (appStep s e) hstep

/-- C7: `switchTab` leaves the state unchanged while loading; otherwise it
sets the requested tab, resets the results to `null` and keeps
`isLoading` false; and from the initial state every reachable `App` state
has its active tab among `'image'`, `'text'`, `'csv'`. -/
theorem switchTab_tab_invariant (s : AppState) (t : String)
    (es : List AppEvent) :
    (s.isLoading = true → switchTab s t = s) ∧
    (s.isLoading = false →
      (switchTab s t).activeTab = t ∧ (switchTab s t).searchResults = none ∧
      (switchTab s t).isLoading = false) ∧
    validTab initialAppState.activeTab = true ∧
    (validTab s.activeTab = true →
      validTab (appRun s es).activeTab = true) := by
  refine ⟨?_, ?_, by decide, appRun_preserves_validTab es s⟩
  · intro h; simp [switchTab, h]
  · intro h; simp [switchTab, h]

/-- C7 witness: switching to `'csv'` from the idle initial state, and the
tab invariant along a concrete event run. -/
theorem switchTab_tab_invariant_witness :
    (switchTab initialAppState "csv").activeTab = "csv" ∧
    (switchTab initialAppState "csv").searchResults = none ∧
    (switchTab initialAppState "csv").isLoading = false ∧
    validTab (appRun initialAppState
      [AppEvent.searchStart, AppEvent.clickTextTab,
       AppEvent.searchComplete (some "r"), AppEvent.clickCsvTab]).activeTab
      = true := by
  obtain ⟨-, h2, -, h4⟩ :=
    switchTab_tab_invariant initialAppState "csv"
      [AppEvent.searchStart, AppEvent.clickTextTab,
       AppEvent.searchComplete (some "r"), AppEvent.clickCsvTab]
  obtain ⟨a, b, c⟩ := h2 rfl
  exact ⟨a, b, c, h4 (by decide)⟩
